import Mathlib

/-!
Shallow embedding of `app.py` (syself/o11y-app-demo): a telemetry demo that
runs a trace-generating worker loop, a simulated system-metrics loop, and an
HTTP surface, all sharing one Prometheus-style metric registry.

Modelling choices:
* Wall-clock time: every `time.time()` call (and every span start/end
  timestamp taken by the tracer) is one read from an external clock stream
  `Env.clock : Nat → Int`, indexed by the number of reads made so far.
  Sleeps do not drive the clock; real time may pass between any two reads.
* Randomness: the draws of `random.uniform`, `random.random` and
  `random.randint` are explicit parameters.
* Unexpected exceptions: Python statements inside the `try:` body of
  `process_data` (and inside the worker loop) may raise.  This is modelled by
  a countdown `St.faultIn`: `some k` means the k-th executed statement raises
  instead of running.  A raised exception is `Except.error s` carrying the
  state at the raise point; `try/finally` and `with` blocks are modelled so
  that their cleanup runs on both the normal and the exceptional path.
* Logging: the root logger's level is set to INFO (`logger.setLevel` at
  app.py line 42), so `logger.debug` calls produce no output record.  `logRec`
  only appends a record when the call's level passes that threshold.  Each
  emitted record additionally snapshots the ambient span context
  (`LogRecord.activeSpan`) so that properties of the form "every record
  emitted while a span is active ..." can be stated.
* Spans: `tracer.start_as_current_span` makes the new span a child of the
  ambient current span (OpenTelemetry context semantics); the ambient context
  is the stack `St.ctx`.  Trace ids and span ids are drawn from the fresh-id
  counter `St.nextId`.
-/

namespace App

/-- A structured-log field value: string, integer, or rational (for floats). -/
inductive FVal where
  | s (v : String)
  | n (v : Int)
  | q (v : Rat)
deriving DecidableEq

/-- One emitted log record.  `activeSpan` is model bookkeeping: the
(traceId, spanId) of the innermost open span at emission time, if any. -/
structure LogRecord where
  level : Nat
  message : String
  fields : List (String × FVal)
  activeSpan : Option (Nat × Nat)
deriving DecidableEq

/-- An open (not yet ended) span on the ambient context stack. -/
structure OpenSpan where
  name : String
  traceId : Nat
  spanId : Nat
  parent : Option Nat
  startTime : Int
  attrs : List (String × FVal)
deriving DecidableEq

/-- A finished span as handed to the export pipeline. -/
structure SpanData where
  name : String
  traceId : Nat
  spanId : Nat
  parent : Option Nat
  startTime : Int
  endTime : Int
  attrs : List (String × FVal)
deriving DecidableEq

/-- The observable program state: the metric registry (one field per
instrument declared in app.py lines 71-112), the emitted logs and finished
spans, the ambient span-context stack, the fresh-id counter, the number of
clock reads made so far, and the fault-injection countdown. -/
structure St where
  itemsProcessed : Nat
  errorsTotal : List (String × Nat)
  requestsTotal : List ((String × String × String) × Nat)
  activeOperations : Int
  processingDurationObs : List Int
  requestLatencyObs : List Int
  cpuUsage : Option Rat
  memoryUsage : Option Int
  logs : List LogRecord
  spans : List SpanData
  ctx : List OpenSpan
  nextId : Nat
  reads : Nat
  faultIn : Option Nat
deriving DecidableEq

/-- The external environment: the wall clock (value of the i-th read) and the
K8S_NODE_NAME environment variable injected into every log record. -/
structure Env where
  clock : Nat → Int
  k8sNodeName : String

/-- Per-iteration random draws of the trace worker: the three sleep durations
and the error draw used by `process_data`, and the randint for `user_id`. -/
structure IterDraws where
  d1 : Rat
  dv : Rat
  ds : Rat
  r : Rat
  u : Nat
deriving DecidableEq

/-- Python logging levels used by app.py. -/
def lvlDebug : Nat := 10

/-- INFO level. -/
def lvlInfo : Nat := 20

/-- ERROR level. -/
def lvlError : Nat := 40

/-- The root logger's threshold, set by `logger.setLevel(logging.INFO)`
(app.py line 42): records below this level are dropped. -/
def loggerLevel : Nat := 20

/-- The error-branch probability threshold `0.05` of app.py line 191, i.e.
the rational 1/20, written as a literal so it evaluates definitionally. -/
def errorThreshold : Rat :=
  { num := 1, den := 20, den_nz := by decide, reduced := by decide }

/-- Lower-case hex digit for a value below 16. -/
def hexChar (n : Nat) : Char :=
  if n < 10 then Char.ofNat (48 + n) else Char.ofNat (87 + n)

/-- Exactly `w` hex digits of `v`, most significant first.  For `v < 16 ^ w`
this agrees with Python's `format(v, '0{w}x')`. -/
def hexFix : Nat → Nat → List Char
  | 0, _ => []
  | w + 1, v => hexFix w (v / 16) ++ [hexChar (v % 16)]

/-- `format(v, '0{w}x')` for `v < 16 ^ w`. -/
def hexPad (w v : Nat) : String := String.mk (hexFix w v)

/-- Increment a labeled counter series (prometheus_client `.labels(...).inc()`);
a series not seen before starts at 0. -/
def incLabeled {κ : Type} [DecidableEq κ] (k : κ) :
    List (κ × Nat) → List (κ × Nat)
  | [] => [(k, 1)]
  | (k', v) :: rest =>
      if k' = k then (k', v + 1) :: rest else (k', v) :: incLabeled k rest

/-- Current value of a labeled counter series (0 if never incremented). -/
def getLabeled {κ : Type} [DecidableEq κ] (k : κ) : List (κ × Nat) → Nat
  | [] => 0
  | (k', v) :: rest => if k' = k then v else getLabeled k rest

/-- The (traceId, spanId) of the innermost open span, if any. -/
def currentSpanIds (s : St) : Option (Nat × Nat) :=
  match s.ctx with
  | [] => none
  | op :: _ => some (op.traceId, op.spanId)

/-- Trace id of the current span (`span.get_span_context().trace_id`). -/
def curTraceId (s : St) : Nat :=
  match s.ctx with
  | [] => 0
  | op :: _ => op.traceId

/-- Span id of the current span (`span.get_span_context().span_id`). -/
def curSpanId (s : St) : Nat :=
  match s.ctx with
  | [] => 0
  | op :: _ => op.spanId

/-- A logging call at `level` with the given context fields.  The record is
emitted only if `level` passes the root logger's threshold; the JSON formatter
appends `k8s_node_name` to every emitted record (app.py lines 31-42). -/
def logRec (env : Env) (level : Nat) (message : String)
    (fields : List (String × FVal)) (s : St) : St :=
  if loggerLevel ≤ level then
    { s with logs := s.logs ++
        [{ level := level, message := message,
           fields := fields ++ [("k8s_node_name", FVal.s env.k8sNodeName)],
           activeSpan := currentSpanIds s }] }
  else s

/-- `span.set_attribute(k, v)`.  At every call site in app.py the handle the
attribute is set on is the innermost open span, so the model sets it there. -/
def setAttr (k : String) (v : FVal) (s : St) : St :=
  match s.ctx with
  | [] => s
  | op :: rest => { s with ctx := { op with attrs := op.attrs ++ [(k, v)] } :: rest }

/-- `time.sleep(d)`: no observable state change (real elapsed time is
captured by the free clock stream, not by the sleep itself). -/
def sleepOp (_d : Rat) (s : St) : St := s

/-- Entering `tracer.start_as_current_span(name)`: take a start timestamp,
then push a span that is a child of the ambient current span (inheriting its
trace id), or a fresh root span if no span is active. -/
def startSpan (env : Env) (name : String) (s : St) : St :=
  let t := env.clock s.reads
  match s.ctx with
  | [] =>
      { s with
        reads := s.reads + 1,
        nextId := s.nextId + 2,
        ctx := [{ name := name, traceId := s.nextId, spanId := s.nextId + 1,
                  parent := none, startTime := t, attrs := [] }] }
  | op :: rest =>
      { s with
        reads := s.reads + 1,
        nextId := s.nextId + 1,
        ctx := { name := name, traceId := op.traceId, spanId := s.nextId,
                 parent := some op.spanId, startTime := t, attrs := [] } :: op :: rest }

/-- Leaving the `with` block: take an end timestamp, pop the innermost span
and hand it to the export pipeline. -/
def endSpan (env : Env) (s : St) : St :=
  let t := env.clock s.reads
  match s.ctx with
  | [] => { s with reads := s.reads + 1 }
  | op :: rest =>
      { s with
        reads := s.reads + 1,
        ctx := rest,
        spans := s.spans ++
          [{ name := op.name, traceId := op.traceId, spanId := op.spanId,
             parent := op.parent, startTime := op.startTime, endTime := t,
             attrs := op.attrs }] }

/-- Fault-injection gate: when the countdown hits 0 the next statement raises
(state is kept; Python exceptions do not roll back side effects). -/
def checkFault (s : St) : Except St St :=
  match s.faultIn with
  | some 0 => Except.error { s with faultIn := none }
  | some (k + 1) => Except.ok { s with faultIn := some k }
  | none => Except.ok s

/-- One Python statement: a potential fault site followed by its effect. -/
def stm (f : St → St) (s : St) : Except St St :=
  match checkFault s with
  | Except.ok s' => Except.ok (f s')
  | Except.error s' => Except.error s'

/-- Sequencing of two fallible computations (`;` with exception propagation). -/
def seqE (m f : St → Except St St) (s : St) : Except St St :=
  match m s with
  | Except.ok s' => f s'
  | Except.error s' => Except.error s'

/-- A `with tracer.start_as_current_span(name):` block: the span is started on
entry and ended on exit on both the normal and the exceptional path (the
context manager's cleanup). -/
def withSpan (env : Env) (name : String) (body : St → Except St St) (s : St) :
    Except St St :=
  match body (startSpan env name s) with
  | Except.ok s' => Except.ok (endSpan env s')
  | Except.error s' => Except.error (endSpan env s')

/-- State reached by a computation, whether it returned or raised. -/
def resultState : Except St St → St
  | Except.ok s => s
  | Except.error s => s

/-- Whether a computation returned normally. -/
def isOkE : Except St St → Bool
  | Except.ok _ => true
  | Except.error _ => false

/-! ### HTTP handlers (app.py lines 115-147)

The response bodies (`generate_latest()`, the fixed JSON payloads) are pure
reads and are not modelled; the handlers' effect on the shared state is. -/

/-- `GET /metrics` handler (app.py lines 115-123): logs the access and renders
the registry; it touches no metric instrument. -/
def metrics (env : Env) (method remoteAddr : String) (s : St) : St :=
  logRec env lvlInfo "Metrics endpoint accessed"
    [("endpoint", FVal.s "/metrics"), ("method", FVal.s method),
     ("remote_addr", FVal.s remoteAddr)] s

/-- `GET /health` handler (app.py lines 126-135): logs the access and returns
a fixed healthy payload; it touches no metric instrument. -/
def health (env : Env) (method remoteAddr : String) (s : St) : St :=
  logRec env lvlInfo "Health check endpoint accessed"
    [("endpoint", FVal.s "/health"), ("method", FVal.s method),
     ("remote_addr", FVal.s remoteAddr), ("status", FVal.s "healthy")] s

/-- `GET /` handler (app.py lines 138-147): increments
`app_requests_total{method=GET, endpoint=/, status=200}` and logs the access. -/
def index (env : Env) (method remoteAddr : String) (s : St) : St :=
  let s1 : St :=
    { s with requestsTotal := incLabeled ("GET", "/", "200") s.requestsTotal }
  logRec env lvlInfo "Root endpoint accessed"
    [("endpoint", FVal.s "/"), ("method", FVal.s method),
     ("remote_addr", FVal.s remoteAddr)] s1

/-! ### process_data (app.py lines 150-213) -/

/-- The 5%/95% branch at app.py lines 190-209.  `t0` is `start_time`; the
success log's `duration_seconds` field makes its own `time.time()` read. -/
def branchStep (env : Env) (item_id : Nat) (t0 : Int) (r : Rat) :
    St → Except St St :=
  if r < errorThreshold then
    seqE (stm (fun s =>
        { s with errorsTotal := incLabeled "validation_error" s.errorsTotal }))
    (seqE (stm (setAttr "processing.status" (FVal.s "error")))
      (stm (fun s =>
        logRec env lvlError "Data processing failed"
          [("item_id", FVal.n (item_id : Int)),
           ("operation", FVal.s "process_data"),
           ("error_type", FVal.s "validation_error"),
           ("processing_status", FVal.s "error"),
           ("trace_id", FVal.s (hexPad 32 (curTraceId s)))] s)))
  else
    seqE (stm (setAttr "processing.status" (FVal.s "completed")))
    (seqE (stm (fun s => { s with itemsProcessed := s.itemsProcessed + 1 }))
      (stm (fun s =>
        logRec env lvlInfo "Data processing completed successfully"
          [("item_id", FVal.n (item_id : Int)),
           ("operation", FVal.s "process_data"),
           ("processing_status", FVal.s "completed"),
           ("duration_seconds", FVal.n (env.clock s.reads - t0))]
          { s with reads := s.reads + 1 })))

/-- The `try:` body of `process_data` (app.py lines 155-209): the
`process_data` span with its two child spans, the simulated sleeps, and the
error/success branch.  `d1`, `dv`, `ds` are the three `random.uniform` sleep
draws; `r` is the `random.random()` error draw. -/
def processDataBody (env : Env) (item_id : Nat) (t0 : Int) (d1 dv ds r : Rat) :
    St → Except St St :=
  withSpan env "process_data" (
    seqE (stm (setAttr "item.id" (FVal.n (item_id : Int))))
    (seqE (stm (fun s =>
        logRec env lvlDebug "Starting data processing"
          [("item_id", FVal.n (item_id : Int)),
           ("operation", FVal.s "process_data"),
           ("trace_id", FVal.s (hexPad 32 (curTraceId s))),
           ("span_id", FVal.s (hexPad 16 (curSpanId s)))] s))
    (seqE (stm (sleepOp d1))
    (seqE (withSpan env "validate_data" (
        seqE (stm (setAttr "validation.result" (FVal.s "success")))
        (seqE (stm (fun s =>
            logRec env lvlDebug "Validating data"
              [("item_id", FVal.n (item_id : Int)),
               ("operation", FVal.s "validate_data"),
               ("validation_result", FVal.s "success")] s))
          (stm (sleepOp dv)))))
    (seqE (withSpan env "store_data" (
        seqE (stm (setAttr "storage.type" (FVal.s "database")))
        (seqE (stm (fun s =>
            logRec env lvlDebug "Storing data"
              [("item_id", FVal.n (item_id : Int)),
               ("operation", FVal.s "store_data"),
               ("storage_type", FVal.s "database")] s))
          (stm (sleepOp ds)))))
      (branchStep env item_id t0 r))))))

/-- The `finally:` block of `process_data` (app.py lines 210-213): decrement
the gauge, then observe elapsed time into the histogram and — from a second,
separate `time.time()` read — into the summary. -/
def processDataFinally (env : Env) (t0 : Int) (s : St) : St :=
  let s1 : St := { s with activeOperations := s.activeOperations - 1 }
  let o1 : Int := env.clock s1.reads - t0
  let s2 : St :=
    { s1 with
      reads := s1.reads + 1,
      processingDurationObs := s1.processingDurationObs ++ [o1] }
  let o2 : Int := env.clock s2.reads - t0
  { s2 with
    reads := s2.reads + 1,
    requestLatencyObs := s2.requestLatencyObs ++ [o2] }

/-- `process_data(item_id)` (app.py lines 150-213): read `start_time`,
increment the active-operations gauge, run the `try:` body, and run the
`finally:` block on both the normal and the exceptional exit path; an
exception raised in the body still propagates after the `finally:` runs
(there is no `except` clause). -/
def process_data (env : Env) (item_id : Nat) (d1 dv ds r : Rat) (s : St) :
    Except St St :=
  match processDataBody env item_id (env.clock s.reads) d1 dv ds r
      { s with
        reads := s.reads + 1,
        activeOperations := s.activeOperations + 1 } with
  | Except.ok sb => Except.ok (processDataFinally env (env.clock s.reads) sb)
  | Except.error sb => Except.error (processDataFinally env (env.clock s.reads) sb)

/-! ### System metrics simulator (app.py lines 216-232) -/

/-- One cycle of the `while True:` loop in `update_simulated_metrics`
(app.py lines 222-232): set both gauges from the draws and make a DEBUG-level
log call (cpu rounded to 2 places).  Total function: no failure branch. -/
def updateCycle (env : Env) (cpu : Rat) (memory : Int) (s : St) : St :=
  let s1 : St := { s with cpuUsage := some cpu }
  let s2 : St := { s1 with memoryUsage := some memory }
  let s3 : St := logRec env lvlDebug "Updated simulated metrics"
    [("component", FVal.s "metrics_updater"),
     ("cpu_percent", FVal.q ((round (cpu * 100) : Int) / 100 : Rat)),
     ("memory_bytes", FVal.n memory)] s2
  sleepOp 5 s3

/-- The loop of `update_simulated_metrics`, run for `fuel` cycles with the
per-cycle random draws `draws` (the real loop runs forever). -/
def updateLoop (env : Env) (draws : Nat → Rat × Int) :
    Nat → Nat → St → St
  | 0, _, s => s
  | fuel + 1, i, s => updateLoop env draws fuel (i + 1)
      (updateCycle env (draws i).1 (draws i).2 s)

/-- `update_simulated_metrics()` (app.py lines 216-232): the startup log then
the cycle loop. -/
def update_simulated_metrics (env : Env) (draws : Nat → Rat × Int)
    (fuel : Nat) (s : St) : St :=
  updateLoop env draws fuel 0
    (logRec env lvlInfo "Starting simulated metrics updater"
      [("component", FVal.s "metrics_updater"),
       ("interval_seconds", FVal.n 5)] s)

/-! ### Trace worker (app.py lines 235-274) -/

/-- One iteration of the `while True:` loop in `trace_worker` (app.py lines
244-265): the `main_operation` span, the correlated info log, the call to
`process_data`, the two extra attributes, and the 1-second sleep. -/
def traceWorkerIter (env : Env) (iteration : Nat) (d : IterDraws) :
    St → Except St St :=
  seqE
    (withSpan env "main_operation" (
      seqE (stm (setAttr "iteration" (FVal.n (iteration : Int))))
      (seqE (stm (fun s =>
          logRec env lvlInfo "Processing item in main operation"
            [("component", FVal.s "trace_worker"),
             ("iteration", FVal.n (iteration : Int)),
             ("user_id", FVal.s ("user_" ++ toString d.u)),
             ("environment", FVal.s "development"),
             ("trace_id", FVal.s (hexPad 32 (curTraceId s))),
             ("span_id", FVal.s (hexPad 16 (curSpanId s)))] s))
      (seqE (process_data env iteration d.d1 d.dv d.ds d.r)
      (seqE (stm (setAttr "environment" (FVal.s "development")))
            (stm (setAttr "user.id" (FVal.s ("user_" ++ toString d.u)))))))))
    (stm (sleepOp 1))

/-- The worker loop, run for at most `fuel` iterations (the real loop runs
forever); `iteration` is the loop counter.  An exception escaping an
iteration aborts the loop, carrying the iteration it escaped from. -/
def traceWorkerLoop (env : Env) (draws : Nat → IterDraws) :
    Nat → Nat → St → Except (Nat × St) St
  | 0, _, s => Except.ok s
  | fuel + 1, iteration, s =>
      match traceWorkerIter env (iteration + 1) (draws (iteration + 1)) s with
      | Except.ok s' => traceWorkerLoop env draws fuel (iteration + 1) s'
      | Except.error s' => Except.error (iteration + 1, s')

/-- `trace_worker()` (app.py lines 235-274): the startup log, the loop, and
the `except Exception` handler that logs one error record with the last known
iteration and increments `app_errors_total{error_type=worker_error}`; the
function then returns — it never re-raises and never restarts the loop.
The exception's text (`str(e)`) is not modelled. -/
def traceWorkerStartLog (env : Env) (s : St) : St :=
  logRec env lvlInfo "Starting trace worker"
    [("component", FVal.s "trace_worker"),
     ("otlp_endpoint", FVal.s "http://alloy.alloy.svc:4318/v1/traces")] s

/-- The `except Exception` handler of `trace_worker` (app.py lines 267-274):
one error-severity log with the last known iteration, then increment
`app_errors_total{error_type=worker_error}`. -/
def traceWorkerHandler (env : Env) (it : Nat) (s : St) : St :=
  let s' : St := logRec env lvlError "Error in trace worker"
    [("component", FVal.s "trace_worker"),
     ("error_type", FVal.s "worker_error"),
     ("error_message", FVal.s ""),
     ("iteration", FVal.n (it : Int))] s
  { s' with errorsTotal := incLabeled "worker_error" s'.errorsTotal }

def trace_worker (env : Env) (draws : Nat → IterDraws) (fuel : Nat) (s : St) :
    St :=
  match traceWorkerLoop env draws fuel 0 (traceWorkerStartLog env s) with
  | Except.ok s' => s'
  | Except.error (it, s') => traceWorkerHandler env it s'

/-! ### Concrete instances for witnesses and counterexamples -/

/-- The process's initial state: all counters zero, no logs, no spans, no
open context, no injected fault. -/
def initSt : St :=
  { itemsProcessed := 0, errorsTotal := [], requestsTotal := [],
    activeOperations := 0, processingDurationObs := [],
    requestLatencyObs := [], cpuUsage := none, memoryUsage := none,
    logs := [], spans := [], ctx := [], nextId := 0, reads := 0,
    faultIn := none }

/-- A concrete strictly increasing wall clock: the i-th read returns i. -/
def envId : Env := { clock := fun i => (i : Int), k8sNodeName := "unknown" }

/-- Concrete per-iteration draws taking the success branch (r = 1 ≥ 0.05). -/
def drawsSucc : Nat → IterDraws :=
  fun _ => { d1 := 0, dv := 0, ds := 0, r := 1, u := 7 }

/-- Concrete per-iteration draws taking the error branch (r = 0 < 0.05). -/
def drawsErr : Nat → IterDraws :=
  fun _ => { d1 := 0, dv := 0, ds := 0, r := 0, u := 7 }

/-- A concrete open `main_operation` span, as the worker loop has open when it
calls `process_data`. -/
def mainOp : OpenSpan :=
  { name := "main_operation", traceId := 0, spanId := 1, parent := none,
    startTime := 0, attrs := [] }

/-- A concrete state in which `mainOp` is the ambient current span. -/
def sWop : St := { initSt with ctx := [mainOp], nextId := 2, reads := 1 }

/-- Field lookup in a log record. -/
def fieldVal (k : String) (rec : LogRecord) : Option FVal :=
  (rec.fields.find? (fun p => p.1 == k)).map (fun p => p.2)

/-- Whether a log record carries a field named `k`. -/
def hasField (k : String) (rec : LogRecord) : Bool :=
  (fieldVal k rec).isSome

/-- A non-decreasing clock (wall time never goes backwards between reads). -/
def ClockMono (c : Nat → Int) : Prop := ∀ i j : Nat, i ≤ j → c i ≤ c j

/-- Iteration index carried by an aborted worker loop. -/
def loopErrIter : Except (Nat × St) St → Nat
  | Except.error (it, _) => it
  | Except.ok _ => 0

/-- State carried by an aborted worker loop. -/
def loopErrState : Except (Nat × St) St → St
  | Except.error (_, sE) => sE
  | Except.ok sE => sE

/-- `m` relates entry state to exit state by `R` on every path. -/
def Frames (R : St → St → Prop) (m : St → Except St St) : Prop :=
  ∀ s s', (m s = Except.ok s' ∨ m s = Except.error s') → R s s'

/-- Relation preserved by every statement of `processDataBody`. -/
def PFrame (s s' : St) : Prop :=
  s'.activeOperations = s.activeOperations ∧
  s'.processingDurationObs = s.processingDurationObs ∧
  s'.requestLatencyObs = s.requestLatencyObs ∧
  s.reads ≤ s'.reads

/-- Relation preserved by everything a worker iteration does: the
`worker_error` series of `app_errors_total` is untouched. -/
def WFrame (s s' : St) : Prop :=
  getLabeled "worker_error" s'.errorsTotal =
    getLabeled "worker_error" s.errorsTotal

/-- `m` returns normally (and consumes no fault budget) whenever no fault is
injected. -/
def NoFaultOk (m : St → Except St St) : Prop :=
  ∀ s, s.faultIn = none → ∃ s', m s = Except.ok s' ∧ s'.faultIn = none


/-! ### Labeled-counter lemmas -/

theorem getLabeled_incLabeled_self {κ : Type} [DecidableEq κ] (k : κ)
    (m : List (κ × Nat)) :
    getLabeled k (incLabeled k m) = getLabeled k m + 1 := by
  induction m with
  | nil => simp [incLabeled, getLabeled]
  | cons p rest ih =>
      obtain ⟨k', v⟩ := p
      by_cases h : k' = k
      · simp [incLabeled, getLabeled, h]
      · simp [incLabeled, getLabeled, h, ih]

theorem getLabeled_incLabeled_ne {κ : Type} [DecidableEq κ] {k k' : κ}
    (h : k ≠ k') (m : List (κ × Nat)) :
    getLabeled k (incLabeled k' m) = getLabeled k m := by
  induction m with
  | nil => simp [incLabeled, getLabeled, Ne.symm h]
  | cons p rest ih =>
      obtain ⟨k'', v⟩ := p
      by_cases h2 : k'' = k'
      · subst h2
        simp [incLabeled, getLabeled, Ne.symm h]
      · by_cases h3 : k'' = k <;>
          simp [incLabeled, getLabeled, h2, h3, ih, h, Ne.symm h]

/-! ### Generic frame machinery

`Frames R m` says the relation `R` connects the entry state of `m` to its
exit state on both the normal and the exceptional path.  The combinator
lemmas below mirror the statement combinators of the embedding, so that
"this piece of code does not touch those fields" facts can be composed. -/

theorem frames_stm {R : St → St → Prop} {f : St → St}
    (htrans : Transitive R)
    (hcf : ∀ (s : St) (o : Option Nat), R s { s with faultIn := o })
    (hf : ∀ s, R s (f s)) : Frames R (stm f) := by
  intro s s' h
  unfold stm checkFault at h
  rcases hfi : s.faultIn with _ | k
  · rw [hfi] at h
    rcases h with h | h
    · injection h with h
      rw [← h]
      exact hf s
    · injection h
  · cases k with
    | zero =>
        rw [hfi] at h
        rcases h with h | h
        · injection h
        · injection h with h
          rw [← h]
          exact hcf s none
    | succ k =>
        rw [hfi] at h
        rcases h with h | h
        · injection h with h
          rw [← h]
          exact htrans (hcf s (some k)) (hf _)
        · injection h

theorem frames_seqE {R : St → St → Prop} {m1 m2 : St → Except St St}
    (htrans : Transitive R) (h1 : Frames R m1) (h2 : Frames R m2) :
    Frames R (seqE m1 m2) := by
  intro s s'
  unfold seqE
  rcases hm : m1 s with t | t <;> intro h
  · rcases h with h | h
    · injection h
    · injection h with h
      rw [← h]
      exact h1 s t (Or.inr hm)
  · exact htrans (h1 s t (Or.inl hm)) (h2 t s' h)

theorem frames_withSpan {R : St → St → Prop} {env : Env} {name : String}
    {body : St → Except St St}
    (htrans : Transitive R)
    (hstart : ∀ s, R s (startSpan env name s))
    (hend : ∀ s, R s (endSpan env s))
    (hbody : Frames R body) : Frames R (withSpan env name body) := by
  intro s s'
  unfold withSpan
  rcases hb : body (startSpan env name s) with t | t <;> intro h
  · rcases h with h | h
    · injection h
    · injection h with h
      rw [← h]
      exact htrans (htrans (hstart s) (hbody _ t (Or.inr hb))) (hend t)
  · rcases h with h | h
    · injection h with h
      rw [← h]
      exact htrans (htrans (hstart s) (hbody _ t (Or.inl hb))) (hend t)
    · injection h

/-! ### Frame relation for the `try:` body of process_data

The body of `process_data` touches neither the active-operations gauge nor
the histogram/summary observation lists, and only advances the clock. -/

theorem pframe_trans : Transitive PFrame := by
  intro a b c h1 h2
  exact ⟨h2.1.trans h1.1, h2.2.1.trans h1.2.1, h2.2.2.1.trans h1.2.2.1,
         h1.2.2.2.trans h2.2.2.2⟩

theorem pframe_cf : ∀ (s : St) (o : Option Nat),
    PFrame s { s with faultIn := o } :=
  fun _ _ => ⟨rfl, rfl, rfl, Nat.le_refl _⟩

theorem pframe_setAttr (k : String) (v : FVal) :
    ∀ s, PFrame s (setAttr k v s) := by
  intro s
  unfold setAttr
  cases hc : s.ctx <;> exact ⟨rfl, rfl, rfl, Nat.le_refl _⟩

theorem pframe_logRec (env : Env) (lvl : Nat) (msg : String)
    (fl : List (String × FVal)) : ∀ s, PFrame s (logRec env lvl msg fl s) := by
  intro s
  unfold logRec
  split <;> exact ⟨rfl, rfl, rfl, Nat.le_refl _⟩

theorem pframe_startSpan (env : Env) (name : String) :
    ∀ s, PFrame s (startSpan env name s) := by
  intro s
  unfold startSpan
  cases hc : s.ctx <;> exact ⟨rfl, rfl, rfl, Nat.le_succ _⟩

theorem pframe_endSpan (env : Env) : ∀ s, PFrame s (endSpan env s) := by
  intro s
  unfold endSpan
  cases hc : s.ctx <;> exact ⟨rfl, rfl, rfl, Nat.le_succ _⟩

theorem pframe_branchStep (env : Env) (item_id : Nat) (t0 : Int) (r : Rat) :
    Frames PFrame (branchStep env item_id t0 r) := by
  unfold branchStep
  split
  · exact frames_seqE pframe_trans
      (frames_stm pframe_trans pframe_cf (fun s => ⟨rfl, rfl, rfl, Nat.le_refl _⟩))
      (frames_seqE pframe_trans
        (frames_stm pframe_trans pframe_cf (pframe_setAttr _ _))
        (frames_stm pframe_trans pframe_cf (fun s => pframe_logRec _ _ _ _ s)))
  · refine frames_seqE pframe_trans
      (frames_stm pframe_trans pframe_cf (pframe_setAttr _ _))
      (frames_seqE pframe_trans
        (frames_stm pframe_trans pframe_cf (fun s => ⟨rfl, rfl, rfl, Nat.le_refl _⟩))
        (frames_stm pframe_trans pframe_cf (fun s => ?_)))
    exact pframe_trans (⟨rfl, rfl, rfl, Nat.le_succ _⟩ :
      PFrame s { s with reads := s.reads + 1 }) (pframe_logRec _ _ _ _ _)

theorem pframe_body (env : Env) (item_id : Nat) (t0 : Int) (d1 dv ds r : Rat) :
    Frames PFrame (processDataBody env item_id t0 d1 dv ds r) := by
  unfold processDataBody
  refine frames_withSpan pframe_trans (pframe_startSpan _ _) (pframe_endSpan _) ?_
  refine frames_seqE pframe_trans
    (frames_stm pframe_trans pframe_cf (pframe_setAttr _ _)) ?_
  refine frames_seqE pframe_trans
    (frames_stm pframe_trans pframe_cf (fun s => pframe_logRec _ _ _ _ s)) ?_
  refine frames_seqE pframe_trans
    (frames_stm pframe_trans pframe_cf (fun s => ⟨rfl, rfl, rfl, Nat.le_refl _⟩)) ?_
  refine frames_seqE pframe_trans ?_ ?_
  · refine frames_withSpan pframe_trans (pframe_startSpan _ _) (pframe_endSpan _) ?_
    exact frames_seqE pframe_trans
      (frames_stm pframe_trans pframe_cf (pframe_setAttr _ _))
      (frames_seqE pframe_trans
        (frames_stm pframe_trans pframe_cf (fun s => pframe_logRec _ _ _ _ s))
        (frames_stm pframe_trans pframe_cf (fun s => ⟨rfl, rfl, rfl, Nat.le_refl _⟩)))
  refine frames_seqE pframe_trans ?_ (pframe_branchStep _ _ _ _)
  refine frames_withSpan pframe_trans (pframe_startSpan _ _) (pframe_endSpan _) ?_
  exact frames_seqE pframe_trans
    (frames_stm pframe_trans pframe_cf (pframe_setAttr _ _))
    (frames_seqE pframe_trans
      (frames_stm pframe_trans pframe_cf (fun s => pframe_logRec _ _ _ _ s))
      (frames_stm pframe_trans pframe_cf (fun s => ⟨rfl, rfl, rfl, Nat.le_refl _⟩)))

/-- Decomposition of any run of `process_data`: on both the normal and the
exceptional path, the exit state is the `finally:` block applied to some
body exit state `sb`. -/
theorem process_data_run (env : Env) (item_id : Nat) (d1 dv ds r : Rat)
    (s : St) : ∀ s',
    (process_data env item_id d1 dv ds r s = Except.ok s' ∨
     process_data env item_id d1 dv ds r s = Except.error s') →
    ∃ sb : St,
      (processDataBody env item_id (env.clock s.reads) d1 dv ds r
          { s with
            reads := s.reads + 1,
            activeOperations := s.activeOperations + 1 } = Except.ok sb ∨
       processDataBody env item_id (env.clock s.reads) d1 dv ds r
          { s with
            reads := s.reads + 1,
            activeOperations := s.activeOperations + 1 } = Except.error sb) ∧
      s' = processDataFinally env (env.clock s.reads) sb := by
  intro s'
  unfold process_data
  rcases hb : processDataBody env item_id (env.clock s.reads) d1 dv ds r
      { s with
        reads := s.reads + 1,
        activeOperations := s.activeOperations + 1 } with sb | sb <;> intro h
  · rcases h with h | h
    · injection h
    · injection h with h
      exact ⟨sb, Or.inr rfl, h.symm⟩
  · rcases h with h | h
    · injection h with h
      exact ⟨sb, Or.inl rfl, h.symm⟩
    · injection h

/-! ### Frame relation for the worker-error counter -/

theorem wframe_trans : Transitive WFrame := by
  intro a b c h1 h2
  exact h2.trans h1

theorem wframe_cf : ∀ (s : St) (o : Option Nat),
    WFrame s { s with faultIn := o } := fun _ _ => rfl

theorem wframe_setAttr (k : String) (v : FVal) :
    ∀ s, WFrame s (setAttr k v s) := by
  intro s
  unfold setAttr
  cases hc : s.ctx <;> rfl

theorem wframe_logRec (env : Env) (lvl : Nat) (msg : String)
    (fl : List (String × FVal)) : ∀ s, WFrame s (logRec env lvl msg fl s) := by
  intro s
  unfold logRec
  split <;> rfl

theorem wframe_startSpan (env : Env) (name : String) :
    ∀ s, WFrame s (startSpan env name s) := by
  intro s
  unfold startSpan
  cases hc : s.ctx <;> rfl

theorem wframe_endSpan (env : Env) : ∀ s, WFrame s (endSpan env s) := by
  intro s
  unfold endSpan
  cases hc : s.ctx <;> rfl

theorem wframe_branchStep (env : Env) (item_id : Nat) (t0 : Int) (r : Rat) :
    Frames WFrame (branchStep env item_id t0 r) := by
  unfold branchStep
  split
  · refine frames_seqE wframe_trans
      (frames_stm wframe_trans wframe_cf (fun s => ?_))
      (frames_seqE wframe_trans
        (frames_stm wframe_trans wframe_cf (wframe_setAttr _ _))
        (frames_stm wframe_trans wframe_cf (fun s => wframe_logRec _ _ _ _ s)))
    exact getLabeled_incLabeled_ne (by decide) s.errorsTotal
  · refine frames_seqE wframe_trans
      (frames_stm wframe_trans wframe_cf (wframe_setAttr _ _))
      (frames_seqE wframe_trans
        (frames_stm wframe_trans wframe_cf (fun s => rfl))
        (frames_stm wframe_trans wframe_cf (fun s => ?_)))
    exact wframe_trans (rfl : WFrame s { s with reads := s.reads + 1 })
      (wframe_logRec _ _ _ _ _)

theorem wframe_body (env : Env) (item_id : Nat) (t0 : Int) (d1 dv ds r : Rat) :
    Frames WFrame (processDataBody env item_id t0 d1 dv ds r) := by
  unfold processDataBody
  refine frames_withSpan wframe_trans (wframe_startSpan _ _) (wframe_endSpan _) ?_
  refine frames_seqE wframe_trans
    (frames_stm wframe_trans wframe_cf (wframe_setAttr _ _)) ?_
  refine frames_seqE wframe_trans
    (frames_stm wframe_trans wframe_cf (fun s => wframe_logRec _ _ _ _ s)) ?_
  refine frames_seqE wframe_trans
    (frames_stm wframe_trans wframe_cf (fun s => rfl)) ?_
  refine frames_seqE wframe_trans ?_ ?_
  · refine frames_withSpan wframe_trans (wframe_startSpan _ _) (wframe_endSpan _) ?_
    exact frames_seqE wframe_trans
      (frames_stm wframe_trans wframe_cf (wframe_setAttr _ _))
      (frames_seqE wframe_trans
        (frames_stm wframe_trans wframe_cf (fun s => wframe_logRec _ _ _ _ s))
        (frames_stm wframe_trans wframe_cf (fun s => rfl)))
  refine frames_seqE wframe_trans ?_ (wframe_branchStep _ _ _ _)
  refine frames_withSpan wframe_trans (wframe_startSpan _ _) (wframe_endSpan _) ?_
  exact frames_seqE wframe_trans
    (frames_stm wframe_trans wframe_cf (wframe_setAttr _ _))
    (frames_seqE wframe_trans
      (frames_stm wframe_trans wframe_cf (fun s => wframe_logRec _ _ _ _ s))
      (frames_stm wframe_trans wframe_cf (fun s => rfl)))

theorem wframe_processDataFinally (env : Env) (t0 : Int) :
    ∀ s, WFrame s (processDataFinally env t0 s) := by
  intro s
  unfold processDataFinally
  rfl

theorem wframe_process_data (env : Env) (item_id : Nat) (d1 dv ds r : Rat) :
    Frames WFrame (process_data env item_id d1 dv ds r) := by
  intro s s' h
  obtain ⟨sb, hb, hfin⟩ := process_data_run env item_id d1 dv ds r s s' h
  have h1 : WFrame s sb := by
    have h2 := wframe_body env item_id (env.clock s.reads) d1 dv ds r _ sb hb
    exact wframe_trans
      (rfl : WFrame s { s with
        reads := s.reads + 1,
        activeOperations := s.activeOperations + 1 }) h2
  rw [hfin]
  exact wframe_trans h1 (wframe_processDataFinally env _ sb)

theorem wframe_traceWorkerIter (env : Env) (iteration : Nat) (d : IterDraws) :
    Frames WFrame (traceWorkerIter env iteration d) := by
  unfold traceWorkerIter
  refine frames_seqE wframe_trans ?_
    (frames_stm wframe_trans wframe_cf (fun s => rfl))
  refine frames_withSpan wframe_trans (wframe_startSpan _ _) (wframe_endSpan _) ?_
  refine frames_seqE wframe_trans
    (frames_stm wframe_trans wframe_cf (wframe_setAttr _ _)) ?_
  refine frames_seqE wframe_trans
    (frames_stm wframe_trans wframe_cf (fun s => wframe_logRec _ _ _ _ s)) ?_
  refine frames_seqE wframe_trans (wframe_process_data _ _ _ _ _ _) ?_
  exact frames_seqE wframe_trans
    (frames_stm wframe_trans wframe_cf (wframe_setAttr _ _))
    (frames_stm wframe_trans wframe_cf (wframe_setAttr _ _))

/-- If the worker loop aborts with an exception, the escaped state has the
same `worker_error` count as the state the loop started from: no iteration
ever touches that series. -/
theorem traceWorkerLoop_error_wframe (env : Env) (draws : Nat → IterDraws) :
    ∀ (fuel iteration : Nat) (s : St) (it' : Nat) (sE : St),
      traceWorkerLoop env draws fuel iteration s = Except.error (it', sE) →
      WFrame s sE := by
  intro fuel
  induction fuel with
  | zero =>
      intro iteration s it' sE h
      injection h
  | succ fuel ih =>
      intro iteration s it' sE h
      unfold traceWorkerLoop at h
      rcases hi : traceWorkerIter env (iteration + 1) (draws (iteration + 1)) s
          with s1 | s1 <;> rw [hi] at h
      · injection h with h
        have h2 : s1 = sE := congrArg Prod.snd h
        rw [← h2]
        exact wframe_traceWorkerIter env _ _ s s1 (Or.inr hi)
      · exact wframe_trans
          (wframe_traceWorkerIter env _ _ s s1 (Or.inl hi)) (ih _ _ _ _ h)

/-! ### No-fault runs return normally -/

theorem nofault_stm {f : St → St} (hf : ∀ s, (f s).faultIn = s.faultIn) :
    NoFaultOk (stm f) := by
  intro s hs
  refine ⟨f s, ?_, by rw [hf s, hs]⟩
  unfold stm checkFault
  rw [hs]

theorem nofault_seqE {m1 m2 : St → Except St St}
    (h1 : NoFaultOk m1) (h2 : NoFaultOk m2) : NoFaultOk (seqE m1 m2) := by
  intro s hs
  obtain ⟨t, h1e, h1f⟩ := h1 s hs
  obtain ⟨u, h2e, h2f⟩ := h2 t h1f
  refine ⟨u, ?_, h2f⟩
  unfold seqE
  rw [h1e]
  exact h2e

theorem startSpan_faultIn (env : Env) (name : String) :
    ∀ s, (startSpan env name s).faultIn = s.faultIn := by
  intro s
  unfold startSpan
  cases hc : s.ctx <;> rfl

theorem endSpan_faultIn (env : Env) :
    ∀ s, (endSpan env s).faultIn = s.faultIn := by
  intro s
  unfold endSpan
  cases hc : s.ctx <;> rfl

theorem setAttr_faultIn (k : String) (v : FVal) :
    ∀ s, (setAttr k v s).faultIn = s.faultIn := by
  intro s
  unfold setAttr
  cases hc : s.ctx <;> rfl

theorem logRec_faultIn (env : Env) (lvl : Nat) (msg : String)
    (fl : List (String × FVal)) :
    ∀ s, (logRec env lvl msg fl s).faultIn = s.faultIn := by
  intro s
  unfold logRec
  split <;> rfl

theorem nofault_withSpan {env : Env} {name : String}
    {body : St → Except St St} (hb : NoFaultOk body) :
    NoFaultOk (withSpan env name body) := by
  intro s hs
  obtain ⟨t, hbe, hbf⟩ := hb (startSpan env name s)
    (by rw [startSpan_faultIn env name s, hs])
  refine ⟨endSpan env t, ?_, by rw [endSpan_faultIn env t, hbf]⟩
  unfold withSpan
  rw [hbe]

theorem nofault_branchStep (env : Env) (item_id : Nat) (t0 : Int) (r : Rat) :
    NoFaultOk (branchStep env item_id t0 r) := by
  unfold branchStep
  split
  · exact nofault_seqE (nofault_stm (fun s => rfl))
      (nofault_seqE (nofault_stm (setAttr_faultIn _ _))
        (nofault_stm (fun s => logRec_faultIn _ _ _ _ s)))
  · refine nofault_seqE (nofault_stm (setAttr_faultIn _ _))
      (nofault_seqE (nofault_stm (fun s => rfl)) (nofault_stm (fun s => ?_)))
    exact logRec_faultIn _ _ _ _ { s with reads := s.reads + 1 }

theorem nofault_body (env : Env) (item_id : Nat) (t0 : Int) (d1 dv ds r : Rat) :
    NoFaultOk (processDataBody env item_id t0 d1 dv ds r) := by
  unfold processDataBody
  refine nofault_withSpan ?_
  refine nofault_seqE (nofault_stm (setAttr_faultIn _ _)) ?_
  refine nofault_seqE (nofault_stm (fun s => logRec_faultIn _ _ _ _ s)) ?_
  refine nofault_seqE (nofault_stm (fun s => rfl)) ?_
  refine nofault_seqE (nofault_withSpan ?_) ?_
  · exact nofault_seqE (nofault_stm (setAttr_faultIn _ _))
      (nofault_seqE (nofault_stm (fun s => logRec_faultIn _ _ _ _ s))
        (nofault_stm (fun s => rfl)))
  refine nofault_seqE (nofault_withSpan ?_) (nofault_branchStep _ _ _ _)
  exact nofault_seqE (nofault_stm (setAttr_faultIn _ _))
    (nofault_seqE (nofault_stm (fun s => logRec_faultIn _ _ _ _ s))
      (nofault_stm (fun s => rfl)))

/-- The effect of the `finally:` block, spelled out. -/
theorem processDataFinally_spec (env : Env) (t0 : Int) (sb : St) :
    (processDataFinally env t0 sb).activeOperations = sb.activeOperations - 1 ∧
    (processDataFinally env t0 sb).processingDurationObs =
      sb.processingDurationObs ++ [env.clock sb.reads - t0] ∧
    (processDataFinally env t0 sb).requestLatencyObs =
      sb.requestLatencyObs ++ [env.clock (sb.reads + 1) - t0] := by
  unfold processDataFinally
  exact ⟨rfl, rfl, rfl⟩

/-- The monotone identity clock of `envId`. -/
theorem envId_mono : ClockMono envId.clock := by
  intro i j h
  simp only [envId]
  exact_mod_cast h

/-- C2: every invocation of `process_data` leaves the `app_active_operations`
gauge at exactly its pre-call value — it is incremented on entry and
decremented in the `finally:` block, which runs on every exit path, including
when an injected exception is raised anywhere in the `try:` body; that same
block appends exactly one elapsed-wall-time observation (a later clock read
minus the entry clock read) to the processing-duration histogram and one to
the request-latency summary on every exit path. -/
theorem c2_process_data_gauge_and_finalizer (env : Env) (item_id : Nat)
    (d1 dv ds r : Rat) (s : St) : ∀ s',
    (process_data env item_id d1 dv ds r s = Except.ok s' ∨
     process_data env item_id d1 dv ds r s = Except.error s') →
    s'.activeOperations = s.activeOperations ∧
    ∃ j1 j2 : Nat, s.reads ≤ j1 ∧ j1 < j2 ∧
      s'.processingDurationObs =
        s.processingDurationObs ++ [env.clock j1 - env.clock s.reads] ∧
      s'.requestLatencyObs =
        s.requestLatencyObs ++ [env.clock j2 - env.clock s.reads] := by
  intro s' h
  obtain ⟨sb, hb, hfin⟩ := process_data_run env item_id d1 dv ds r s s' h
  obtain ⟨hAO, hPD, hRL, hrd⟩ :=
    pframe_body env item_id (env.clock s.reads) d1 dv ds r _ sb hb
  simp only [] at hAO hPD hRL hrd
  obtain ⟨fAO, fPD, fRL⟩ := processDataFinally_spec env (env.clock s.reads) sb
  subst hfin
  refine ⟨?_, sb.reads, sb.reads + 1, by omega, by omega, ?_, ?_⟩
  · rw [fAO, hAO]
    omega
  · rw [fPD, hPD]
  · rw [fRL, hRL]

/-- Witness for C2 at a concrete faulted run: with a fault injected at the
third statement of the body, the gauge still returns to its initial value. -/
theorem c2_process_data_gauge_and_finalizer_witness :
    (resultState (process_data envId 1 0 0 0 1
      { initSt with faultIn := some 2 })).activeOperations = 0 := by
  have h := c2_process_data_gauge_and_finalizer envId 1 0 0 0 1
    { initSt with faultIn := some 2 }
    (resultState (process_data envId 1 0 0 0 1
      { initSt with faultIn := some 2 })) (Or.inr rfl)
  exact h.1

/-- C9 (implicit): the value observed into the `app_request_latency_seconds`
summary is at least the value observed into the
`app_processing_duration_seconds` histogram for the same call, because the
summary's elapsed time is recomputed from a second, not-earlier clock read. -/
theorem c9_summary_ge_histogram (env : Env) (hm : ClockMono env.clock)
    (item_id : Nat) (d1 dv ds r : Rat) (s : St) : ∀ s',
    (process_data env item_id d1 dv ds r s = Except.ok s' ∨
     process_data env item_id d1 dv ds r s = Except.error s') →
    ∃ a b : Int,
      s'.processingDurationObs = s.processingDurationObs ++ [a] ∧
      s'.requestLatencyObs = s.requestLatencyObs ++ [b] ∧
      a ≤ b := by
  intro s' h
  obtain ⟨sb, hb, hfin⟩ := process_data_run env item_id d1 dv ds r s s' h
  obtain ⟨hAO, hPD, hRL, hrd⟩ :=
    pframe_body env item_id (env.clock s.reads) d1 dv ds r _ sb hb
  obtain ⟨fAO, fPD, fRL⟩ := processDataFinally_spec env (env.clock s.reads) sb
  subst hfin
  refine ⟨env.clock sb.reads - env.clock s.reads,
          env.clock (sb.reads + 1) - env.clock s.reads, ?_, ?_, ?_⟩
  · rw [fPD, hPD]
  · rw [fRL, hRL]
  · have := hm sb.reads (sb.reads + 1) (Nat.le_succ _)
    omega

/-- Witness for C9 at a concrete successful run under the identity clock. -/
theorem c9_summary_ge_histogram_witness :
    ∃ a b : Int,
      (resultState (process_data envId 2 0 0 0 1
        initSt)).processingDurationObs =
          initSt.processingDurationObs ++ [a] ∧
      (resultState (process_data envId 2 0 0 0 1
        initSt)).requestLatencyObs = initSt.requestLatencyObs ++ [b] ∧
      a ≤ b :=
  c9_summary_ge_histogram envId envId_mono 2 0 0 0 1 initSt
    (resultState (process_data envId 2 0 0 0 1 initSt))
    (Or.inl rfl)

/-- C5 (amended): the histogram and summary observations of one call both
measure elapsed time from the same `start_time`, but from two distinct,
consecutive clock reads (`time.time()` is called twice in the `finally:`
block); they are equal exactly when those two reads return the same value. -/
theorem c5_two_separate_clock_reads (env : Env) (item_id : Nat)
    (d1 dv ds r : Rat) (s : St) : ∀ s',
    (process_data env item_id d1 dv ds r s = Except.ok s' ∨
     process_data env item_id d1 dv ds r s = Except.error s') →
    ∃ j : Nat, s.reads ≤ j ∧
      s'.processingDurationObs =
        s.processingDurationObs ++ [env.clock j - env.clock s.reads] ∧
      s'.requestLatencyObs =
        s.requestLatencyObs ++ [env.clock (j + 1) - env.clock s.reads] ∧
      (env.clock (j + 1) - env.clock s.reads =
         env.clock j - env.clock s.reads ↔
       env.clock (j + 1) = env.clock j) := by
  intro s' h
  obtain ⟨sb, hb, hfin⟩ := process_data_run env item_id d1 dv ds r s s' h
  obtain ⟨hAO, hPD, hRL, hrd⟩ :=
    pframe_body env item_id (env.clock s.reads) d1 dv ds r _ sb hb
  simp only [] at hrd
  obtain ⟨fAO, fPD, fRL⟩ := processDataFinally_spec env (env.clock s.reads) sb
  subst hfin
  refine ⟨sb.reads, by omega, ?_, ?_, ?_⟩
  · rw [fPD, hPD]
  · rw [fRL, hRL]
  · constructor <;> intro hq <;> omega

/-- Witness for C5's amended statement at a concrete run. -/
theorem c5_two_separate_clock_reads_witness :
    ∃ j : Nat, initSt.reads ≤ j ∧
      (resultState (process_data envId 3 0 0 0 1
        initSt)).processingDurationObs =
        initSt.processingDurationObs ++
          [envId.clock j - envId.clock initSt.reads] ∧
      (resultState (process_data envId 3 0 0 0 1
        initSt)).requestLatencyObs =
        initSt.requestLatencyObs ++
          [envId.clock (j + 1) - envId.clock initSt.reads] ∧
      (envId.clock (j + 1) - envId.clock initSt.reads =
         envId.clock j - envId.clock initSt.reads ↔
       envId.clock (j + 1) = envId.clock j) :=
  c5_two_separate_clock_reads envId 3 0 0 0 1 initSt
    (resultState (process_data envId 3 0 0 0 1 initSt))
    (Or.inl rfl)

/-- Counterexample for C5 as stated: under the identity clock (every read one
tick after the previous), a successful call observes 8 into the histogram but
9 into the summary — the two observations are not equal to each other. -/
theorem c5_observations_differ_cex :
    (resultState (process_data envId 1 0 0 0 1
      initSt)).processingDurationObs = [8] ∧
    (resultState (process_data envId 1 0 0 0 1
      initSt)).requestLatencyObs = [9] := by
  decide

/-- C6 (amended): `process_data` returns normally whenever no unexpected
exception is raised inside its body — the simulated validation error is
recorded in counters/attributes/logs, never raised; equivalently, an
exception can escape `process_data` only when one is injected mid-sequence
(and then it propagates to the caller after the `finally:` block runs). -/
theorem c6_no_raise_without_fault (env : Env) (item_id : Nat)
    (d1 dv ds r : Rat) (s : St) (hf : s.faultIn = none) :
    ∃ s', process_data env item_id d1 dv ds r s = Except.ok s' := by
  obtain ⟨sb, hbe, hbf⟩ := nofault_body env item_id (env.clock s.reads) d1 dv
    ds r
    { s with
      reads := s.reads + 1,
      activeOperations := s.activeOperations + 1 } hf
  refine ⟨processDataFinally env (env.clock s.reads) sb, ?_⟩
  unfold process_data
  rw [hbe]

/-- Witness for C6's amended statement: a fault-free call returns normally. -/
theorem c6_no_raise_without_fault_witness :
    ∃ s', process_data envId 4 0 0 0 1 initSt =
      Except.ok s' :=
  c6_no_raise_without_fault envId 4 0 0 0 1 initSt rfl

/-- Counterexample for C6 as stated: with an unexpected exception injected at
the first statement of the body, `process_data` does raise past its own
boundary (the call's result is the exceptional outcome, handed to the
caller). -/
theorem c6_raises_on_injected_fault_cex :
    isOkE (process_data envId 1 0 0 0 1
      { initSt with faultIn := some 0 }) = false := by
  decide

/-- C7: if an uncaught exception escapes an iteration of the `trace_worker`
loop, the worker logs exactly one error-severity record carrying the last
known iteration number, increments `app_errors_total{error_type=worker_error}`
by exactly 1, and `trace_worker` returns normally without re-raising and
without retrying — the loop is not restarted (the function's only behavior
after the handler is to return, leaving the process running). -/
theorem c7_worker_fault_policy (env : Env) (draws : Nat → IterDraws)
    (fuel : Nat) (s : St) (it' : Nat) (sE : St)
    (hloop : traceWorkerLoop env draws fuel 0 (traceWorkerStartLog env s) =
      Except.error (it', sE)) :
    trace_worker env draws fuel s = traceWorkerHandler env it' sE ∧
    getLabeled "worker_error" (trace_worker env draws fuel s).errorsTotal =
      getLabeled "worker_error" s.errorsTotal + 1 ∧
    ∃ rec : LogRecord,
      (trace_worker env draws fuel s).logs = sE.logs ++ [rec] ∧
      rec.level = lvlError ∧
      ("iteration", FVal.n (it' : Int)) ∈ rec.fields := by
  have htw : trace_worker env draws fuel s = traceWorkerHandler env it' sE := by
    unfold trace_worker
    rw [hloop]
  have hW : WFrame (traceWorkerStartLog env s) sE :=
    traceWorkerLoop_error_wframe env draws fuel 0 _ it' sE hloop
  have hstart : getLabeled "worker_error"
      (traceWorkerStartLog env s).errorsTotal =
      getLabeled "worker_error" s.errorsTotal := by
    simp [traceWorkerStartLog, logRec, loggerLevel, lvlInfo]
  refine ⟨htw, ?_, ?_⟩
  · rw [htw]
    have hh : (traceWorkerHandler env it' sE).errorsTotal =
        incLabeled "worker_error" sE.errorsTotal := by
      simp [traceWorkerHandler, logRec, loggerLevel, lvlError]
    rw [hh, getLabeled_incLabeled_self, hW, hstart]
  · refine ⟨{ level := lvlError, message := "Error in trace worker",
              fields := [("component", FVal.s "trace_worker"),
                         ("error_type", FVal.s "worker_error"),
                         ("error_message", FVal.s ""),
                         ("iteration", FVal.n (it' : Int)),
                         ("k8s_node_name", FVal.s env.k8sNodeName)],
              activeSpan := currentSpanIds sE }, ?_, rfl, by simp⟩
    rw [htw]
    simp [traceWorkerHandler, logRec, loggerLevel, lvlError]

/-- Witness for C7: with a fault injected at the first statement of the first
iteration, the worker ends with the `worker_error` series at exactly 1. -/
theorem c7_worker_fault_policy_witness :
    getLabeled "worker_error" (trace_worker envId drawsSucc 1
      { initSt with faultIn := some 0 }).errorsTotal = 1 := by
  have h := c7_worker_fault_policy envId drawsSucc 1
    { initSt with faultIn := some 0 }
    (loopErrIter (traceWorkerLoop envId drawsSucc 1 0
      (traceWorkerStartLog envId { initSt with faultIn := some 0 })))
    (loopErrState (traceWorkerLoop envId drawsSucc 1 0
      (traceWorkerStartLog envId { initSt with faultIn := some 0 })))
    rfl
  exact h.2.1

/-- C1: in every completed (fault-free) call of `process_data`, exactly one of
the two branches runs: when the random draw is below 0.05, the
`validation_error` series of `app_errors_total` is incremented by 1, the span
attribute `processing.status` is set to `error`, and `app_items_processed_total`
is unchanged; otherwise `app_items_processed_total` is incremented by 1,
`processing.status` is set to `completed`, and the error counter is unchanged
— never both branches and never neither. -/
theorem c1_exactly_one_branch (env : Env) (item_id : Nat) (d1 dv ds r : Rat)
    (s : St) (hfault : s.faultIn = none) :
    ∃ (s' : St) (vd sd pd : SpanData),
      process_data env item_id d1 dv ds r s = Except.ok s' ∧
      s'.spans = s.spans ++ [vd, sd, pd] ∧
      pd.name = "process_data" ∧
      (r < errorThreshold →
        getLabeled "validation_error" s'.errorsTotal =
          getLabeled "validation_error" s.errorsTotal + 1 ∧
        s'.itemsProcessed = s.itemsProcessed ∧
        pd.attrs = [("item.id", FVal.n (item_id : Int)),
                    ("processing.status", FVal.s "error")]) ∧
      (¬ r < errorThreshold →
        s'.errorsTotal = s.errorsTotal ∧
        s'.itemsProcessed = s.itemsProcessed + 1 ∧
        pd.attrs = [("item.id", FVal.n (item_id : Int)),
                    ("processing.status", FVal.s "completed")]) := by
  obtain ⟨ip, et, rt, ao, po, ro, cu, mu, lg, sp, cx, ni, rd, fi⟩ := s
  simp only at hfault
  subst hfault
  by_cases hr : r < errorThreshold
  · cases cx with
    | nil =>
        simp [process_data, processDataBody, processDataFinally, withSpan,
          seqE, stm, checkFault, startSpan, endSpan, setAttr, logRec, sleepOp,
          branchStep, currentSpanIds, curTraceId, curSpanId, loggerLevel,
          lvlDebug, lvlInfo, lvlError, hr, getLabeled_incLabeled_self]
        exact ⟨_, _, _, ⟨rfl, rfl, rfl⟩, rfl, rfl⟩
    | cons op rest =>
        simp [process_data, processDataBody, processDataFinally, withSpan,
          seqE, stm, checkFault, startSpan, endSpan, setAttr, logRec, sleepOp,
          branchStep, currentSpanIds, curTraceId, curSpanId, loggerLevel,
          lvlDebug, lvlInfo, lvlError, hr, getLabeled_incLabeled_self]
        exact ⟨_, _, _, ⟨rfl, rfl, rfl⟩, rfl, rfl⟩
  · cases cx with
    | nil =>
        simp [process_data, processDataBody, processDataFinally, withSpan,
          seqE, stm, checkFault, startSpan, endSpan, setAttr, logRec, sleepOp,
          branchStep, currentSpanIds, curTraceId, curSpanId, loggerLevel,
          lvlDebug, lvlInfo, lvlError, hr, getLabeled_incLabeled_self]
        exact ⟨_, _, _, ⟨rfl, rfl, rfl⟩, rfl, rfl⟩
    | cons op rest =>
        simp [process_data, processDataBody, processDataFinally, withSpan,
          seqE, stm, checkFault, startSpan, endSpan, setAttr, logRec, sleepOp,
          branchStep, currentSpanIds, curTraceId, curSpanId, loggerLevel,
          lvlDebug, lvlInfo, lvlError, hr, getLabeled_incLabeled_self]
        exact ⟨_, _, _, ⟨rfl, rfl, rfl⟩, rfl, rfl⟩

/-- Witness for C1 at a concrete error-branch run (draw 0 < 0.05): the error
counter ends at 1 and the items-processed counter is untouched. -/
theorem c1_exactly_one_branch_witness :
    ∃ s' : St, process_data envId 5 0 0 0 0 initSt = Except.ok s' ∧
      getLabeled "validation_error" s'.errorsTotal = 1 ∧
      s'.itemsProcessed = 0 := by
  obtain ⟨s', vd, sd, pd, he, hsp, hname, herr, hsucc⟩ :=
    c1_exactly_one_branch envId 5 0 0 0 0 initSt rfl
  obtain ⟨ha, hb, hc⟩ := herr (by decide)
  exact ⟨s', he, ha.trans (by decide), hb⟩

/-- `hexFix` produces exactly `w` characters. -/
theorem hexFix_length (w : Nat) : ∀ v, (hexFix w v).length = w := by
  induction w with
  | zero => intro v; rfl
  | succ w ih => intro v; simp [hexFix, ih]

/-- `hexPad` renders exactly `w` hex characters. -/
theorem hexPad_length (w v : Nat) : (hexPad w v).length = w := by
  have h : (hexPad w v).length = (hexFix w v).length := rfl
  rw [h, hexFix_length]

/-- C3 (amended): every span opened within one `process_data` call shares the
trace identifier of the `process_data` span, and each child span's interval is
contained in its parent's (given a non-decreasing clock); but the
`process_data` span is not a root span — called with a span active (as the
worker loop always does, inside `main_operation`), it becomes a child of that
ambient span and inherits its trace identifier. -/
theorem c3_span_correlation_and_nesting (env : Env)
    (hm : ClockMono env.clock) (item_id : Nat) (d1 dv ds r : Rat) (s : St)
    (op : OpenSpan) (rest : List OpenSpan) (hctx : s.ctx = op :: rest)
    (hfault : s.faultIn = none) :
    ∃ (s' : St) (vd sd pd : SpanData),
      process_data env item_id d1 dv ds r s = Except.ok s' ∧
      s'.spans = s.spans ++ [vd, sd, pd] ∧
      pd.name = "process_data" ∧ vd.name = "validate_data" ∧
      sd.name = "store_data" ∧
      pd.parent = some op.spanId ∧
      pd.traceId = op.traceId ∧
      vd.traceId = pd.traceId ∧ sd.traceId = pd.traceId ∧
      vd.parent = some pd.spanId ∧ sd.parent = some pd.spanId ∧
      pd.startTime ≤ vd.startTime ∧ vd.endTime ≤ pd.endTime ∧
      pd.startTime ≤ sd.startTime ∧ sd.endTime ≤ pd.endTime := by
  obtain ⟨ip, et, rt, ao, po, ro, cu, mu, lg, sp, cx, ni, rd, fi⟩ := s
  simp only at hfault hctx
  subst hfault
  subst hctx
  by_cases hr : r < errorThreshold
  · simp [process_data, processDataBody, processDataFinally, withSpan,
      seqE, stm, checkFault, startSpan, endSpan, setAttr, logRec, sleepOp,
      branchStep, currentSpanIds, curTraceId, curSpanId, loggerLevel,
      lvlDebug, lvlInfo, lvlError, hr]
    exact ⟨_, _, _, ⟨rfl, rfl, rfl⟩, rfl, rfl, rfl, rfl, rfl, rfl, rfl, rfl,
      rfl, hm _ _ (by omega), hm _ _ (by omega), hm _ _ (by omega),
      hm _ _ (by omega)⟩
  · simp [process_data, processDataBody, processDataFinally, withSpan,
      seqE, stm, checkFault, startSpan, endSpan, setAttr, logRec, sleepOp,
      branchStep, currentSpanIds, curTraceId, curSpanId, loggerLevel,
      lvlDebug, lvlInfo, lvlError, hr]
    exact ⟨_, _, _, ⟨rfl, rfl, rfl⟩, rfl, rfl, rfl, rfl, rfl, rfl, rfl, rfl,
      rfl, hm _ _ (by omega), hm _ _ (by omega), hm _ _ (by omega),
      hm _ _ (by omega)⟩

/-- Witness for C3's amended statement at a concrete call under an open
`main_operation` span. -/
theorem c3_span_correlation_and_nesting_witness :
    ∃ (s' : St) (vd sd pd : SpanData),
      process_data envId 6 0 0 0 1 sWop = Except.ok s' ∧
      pd.parent = some mainOp.spanId ∧
      pd.traceId = mainOp.traceId ∧
      vd.traceId = pd.traceId ∧ sd.traceId = pd.traceId ∧
      vd.parent = some pd.spanId ∧
      pd.startTime ≤ vd.startTime ∧ vd.endTime ≤ pd.endTime := by
  obtain ⟨s', vd, sd, pd, he, hsp, hn1, hn2, hn3, hpar, htr, htv, hts, hvp,
    hsp2, hi1, hi2, hi3, hi4⟩ :=
    c3_span_correlation_and_nesting envId envId_mono 6 0 0 0 1 sWop mainOp []
      rfl rfl
  exact ⟨s', vd, sd, pd, he, hpar, htr, htv, hts, hvp, hi1, hi2⟩

/-- Counterexample for C3 as stated: in the only call context the program has
(the worker loop's `main_operation` span), the span named `process_data` is
not a root span — its parent is the `main_operation` span (span id 1). -/
theorem c3_process_data_not_root_cex :
    ((trace_worker envId drawsSucc 1 initSt).spans.filter
      (fun q => q.name == "process_data")).map (fun q => q.parent) =
      [some 1] := by
  decide

/-- C4 (amended): of the records emitted while a span is active, only the
worker's `main_operation` info log carries both correlation ids (32 hex chars
of trace id, 16 of span id, matching the active span); `process_data`'s
error-branch log carries only the trace id, its success log carries neither,
and the three debug logs are suppressed by the logger's INFO threshold, so a
fault-free worker iteration emits exactly these two records. -/
theorem c4_log_correlation_partial (env : Env) (iteration : Nat)
    (d : IterDraws) (s : St) (hctx : s.ctx = []) (hfault : s.faultIn = none) :
    ∃ (s' : St) (mrec brec : LogRecord) (tid sid : Nat),
      traceWorkerIter env iteration d s = Except.ok s' ∧
      s'.logs = s.logs ++ [mrec, brec] ∧
      mrec.activeSpan = some (tid, sid) ∧
      fieldVal "trace_id" mrec = some (FVal.s (hexPad 32 tid)) ∧
      (hexPad 32 tid).length = 32 ∧
      fieldVal "span_id" mrec = some (FVal.s (hexPad 16 sid)) ∧
      (hexPad 16 sid).length = 16 ∧
      brec.activeSpan.isSome = true ∧
      (d.r < errorThreshold →
        fieldVal "trace_id" brec = some (FVal.s (hexPad 32 tid)) ∧
        hasField "span_id" brec = false) ∧
      (¬ d.r < errorThreshold →
        hasField "trace_id" brec = false ∧
        hasField "span_id" brec = false) := by
  obtain ⟨ip, et, rt, ao, po, ro, cu, mu, lg, sp, cx, ni, rd, fi⟩ := s
  obtain ⟨dd1, ddv, dds, dr, du⟩ := d
  simp only at hfault hctx
  subst hfault
  subst hctx
  by_cases hr : dr < errorThreshold
  · simp [traceWorkerIter, process_data, processDataBody, processDataFinally,
      withSpan, seqE, stm, checkFault, startSpan, endSpan, setAttr, logRec,
      sleepOp, branchStep, currentSpanIds, curTraceId, curSpanId, loggerLevel,
      lvlDebug, lvlInfo, lvlError, hr, hexPad_length]
    exact ⟨_, _, ⟨rfl, rfl⟩, ni, ni + 1, rfl, rfl, rfl, rfl, rfl, rfl⟩
  · simp [traceWorkerIter, process_data, processDataBody, processDataFinally,
      withSpan, seqE, stm, checkFault, startSpan, endSpan, setAttr, logRec,
      sleepOp, branchStep, currentSpanIds, curTraceId, curSpanId, loggerLevel,
      lvlDebug, lvlInfo, lvlError, hr, hexPad_length]
    exact ⟨_, _, ⟨rfl, rfl⟩, ni, ni + 1, rfl, rfl, rfl, rfl, rfl, rfl⟩

/-- Witness for C4's amended statement at a concrete success-branch iteration:
the worker log carries both ids, the success log carries neither. -/
theorem c4_log_correlation_partial_witness :
    ∃ (s' : St) (mrec brec : LogRecord),
      traceWorkerIter envId 1 (drawsSucc 0) initSt = Except.ok s' ∧
      hasField "trace_id" mrec = true ∧
      hasField "span_id" mrec = true ∧
      hasField "trace_id" brec = false ∧
      hasField "span_id" brec = false := by
  obtain ⟨s', mrec, brec, tid, sid, he, hlg, hms, hmt, hl32, hmsp, hl16, hbs,
    himp1, himp2⟩ :=
    c4_log_correlation_partial envId 1 (drawsSucc 0) initSt rfl rfl
  obtain ⟨hb1, hb2⟩ := himp2 (by decide)
  refine ⟨s', mrec, brec, he, ?_, ?_, hb1, hb2⟩
  · simp [hasField, hmt]
  · simp [hasField, hmsp]

/-- Counterexample for C4 as stated: one worker iteration emits a record while
a span is active that carries no `trace_id` field at all (the success log),
and in the error branch a record that has a `trace_id` but no `span_id`. -/
theorem c4_missing_ids_cex :
    ((trace_worker envId drawsSucc 1 initSt).logs.filter
      (fun rec => rec.activeSpan.isSome && !(hasField "trace_id" rec))).length
        = 1 ∧
    ((trace_worker envId drawsErr 1 initSt).logs.filter
      (fun rec => rec.activeSpan.isSome && hasField "trace_id" rec &&
        !(hasField "span_id" rec))).length = 1 := by
  decide

/-- C8 (amended): every cycle of the system-metrics loop sets the
`app_cpu_usage_percent` gauge to the uniform draw in [10, 90] and the
`app_memory_usage_bytes` gauge to the integer draw in
[100000000, 500000000], and has no failure branch; but the debug-level
logging call of the cycle is suppressed by the root logger's INFO threshold
(app.py line 42), so no log record is emitted. -/
theorem c8_gauges_set_debug_suppressed (env : Env) (cpu : Rat) (memory : Int)
    (s : St) (h1 : 10 ≤ cpu) (h2 : cpu ≤ 90)
    (h3 : 100000000 ≤ memory) (h4 : memory ≤ 500000000) :
    (updateCycle env cpu memory s).cpuUsage = some cpu ∧
    10 ≤ cpu ∧ cpu ≤ 90 ∧
    (updateCycle env cpu memory s).memoryUsage = some memory ∧
    100000000 ≤ memory ∧ memory ≤ 500000000 ∧
    (updateCycle env cpu memory s).logs = s.logs :=
  ⟨rfl, h1, h2, rfl, h3, h4, rfl⟩

/-- Witness for C8's amended statement at a concrete cycle. -/
theorem c8_gauges_set_debug_suppressed_witness :
    (updateCycle envId 50 200000000 initSt).cpuUsage = some 50 ∧
    (10 : Rat) ≤ 50 ∧ (50 : Rat) ≤ 90 ∧
    (updateCycle envId 50 200000000 initSt).memoryUsage = some 200000000 ∧
    (100000000 : Int) ≤ 200000000 ∧ (200000000 : Int) ≤ 500000000 ∧
    (updateCycle envId 50 200000000 initSt).logs = initSt.logs :=
  c8_gauges_set_debug_suppressed envId 50 200000000 initSt (by decide)
    (by decide) (by decide) (by decide)

/-- Counterexample for C8 as stated: a concrete cycle sets both gauges but
emits no log record whatsoever — the debug-level record the claim promises
never reaches the output. -/
theorem c8_no_debug_record_cex :
    (updateCycle envId 50 200000000 initSt).logs = [] ∧
    (updateCycle envId 50 200000000 initSt).cpuUsage = some 50 ∧
    (updateCycle envId 50 200000000 initSt).memoryUsage = some 200000000 := by
  decide

/-- C10: handling `GET /metrics` or `GET /health` leaves every metric
instrument unchanged, and of the HTTP handlers only `GET /` increments
`app_requests_total` (at labels method=GET, endpoint=/, status=200), touching
no other instrument — so scraping the metrics endpoint never counts itself in
any metric. -/
theorem c10_http_handlers_meter_frame (env : Env) (method remoteAddr : String)
    (s : St) :
    (metrics env method remoteAddr s).itemsProcessed = s.itemsProcessed ∧
    (metrics env method remoteAddr s).errorsTotal = s.errorsTotal ∧
    (metrics env method remoteAddr s).requestsTotal = s.requestsTotal ∧
    (metrics env method remoteAddr s).activeOperations = s.activeOperations ∧
    (metrics env method remoteAddr s).processingDurationObs =
      s.processingDurationObs ∧
    (metrics env method remoteAddr s).requestLatencyObs =
      s.requestLatencyObs ∧
    (metrics env method remoteAddr s).cpuUsage = s.cpuUsage ∧
    (metrics env method remoteAddr s).memoryUsage = s.memoryUsage ∧
    (health env method remoteAddr s).itemsProcessed = s.itemsProcessed ∧
    (health env method remoteAddr s).errorsTotal = s.errorsTotal ∧
    (health env method remoteAddr s).requestsTotal = s.requestsTotal ∧
    (health env method remoteAddr s).activeOperations = s.activeOperations ∧
    (health env method remoteAddr s).processingDurationObs =
      s.processingDurationObs ∧
    (health env method remoteAddr s).requestLatencyObs =
      s.requestLatencyObs ∧
    (health env method remoteAddr s).cpuUsage = s.cpuUsage ∧
    (health env method remoteAddr s).memoryUsage = s.memoryUsage ∧
    (index env method remoteAddr s).requestsTotal =
      incLabeled ("GET", "/", "200") s.requestsTotal ∧
    (index env method remoteAddr s).itemsProcessed = s.itemsProcessed ∧
    (index env method remoteAddr s).errorsTotal = s.errorsTotal ∧
    (index env method remoteAddr s).activeOperations = s.activeOperations ∧
    (index env method remoteAddr s).processingDurationObs =
      s.processingDurationObs ∧
    (index env method remoteAddr s).requestLatencyObs =
      s.requestLatencyObs ∧
    (index env method remoteAddr s).cpuUsage = s.cpuUsage ∧
    (index env method remoteAddr s).memoryUsage = s.memoryUsage :=
  ⟨rfl, rfl, rfl, rfl, rfl, rfl, rfl, rfl,
   rfl, rfl, rfl, rfl, rfl, rfl, rfl, rfl,
   rfl, rfl, rfl, rfl, rfl, rfl, rfl, rfl⟩

end App
